import Mathlib

/-!
Shallow embedding of `setup.py` of the LIEF python packaging script.

Conventions of the embedding:
* Results of subprocess invocations (`git describe`, `git tag`, probing
  `cmake` / `ninja`) are inputs of the embedded functions: `none` models a
  raised exception (command missing, non-zero exit), `some s` models the
  decoded and stripped standard output `s`.
* A Python function that can return `None` is embedded with result type
  `Option String`, `none` standing for the Python value `None`.
* Filesystem facts (`.git` being a directory, `PKG-INFO` being a file) are
  boolean inputs.
-/

set_option autoImplicit false

namespace Setup

/-- Auxiliary recursion for `pySplit`: walks the character list, collecting
the current field in `acc` (reversed) and starting a new field at each
separator. -/
def splitCharAux (sep : Char) : List Char → List Char → List (List Char)
  | [], acc => [acc.reverse]
  | c :: cs, acc =>
    if c = sep then acc.reverse :: splitCharAux sep cs []
    else splitCharAux sep cs (c :: acc)

/-- Python `s.split(sep)` for a one-character separator `sep`:
`"a-b".split('-') == ['a','b']`, `"".split('-') == ['']`,
`"a--b".split('-') == ['a','','b']`. -/
def pySplit (sep : Char) (s : String) : List String :=
  (splitCharAux sep s.data []).map List.asString

/-- Python `s.lstrip(c)` for a one-character argument: removes the leading
run of `c` characters. -/
def pyLstrip (c : Char) (s : String) : String :=
  (s.data.dropWhile (· = c)).asString

/-- The format string `fmt = '{tag}.dev0'`, applied as Python
`fmt.format(tag=tag, gitsha=...)`: the `gitsha` argument is not referenced
by the template, so it is discarded. -/
def fmt (tag : String) (_gitsha : String) : String :=
  tag ++ ".dev0"

/-- The format string `fmt_tagged = '{tag}'`, applied as Python
`fmt_tagged.format(tag=tag, gitsha=...)`. -/
def fmt_tagged (tag : String) (_gitsha : String) : String :=
  tag

/-- `format_version(version, fmt=fmt)` from `setup.py`.

```
parts = version.split('-')
assert len(parts) in (3, 4)
dirty = len(parts) == 4
tag, count, sha = parts[:3]
if count == '0' and not dirty:
    return tag
return fmt.format(tag=tag, gitsha=sha.lstrip('g'))
```

`none` models the `AssertionError` raised when the split does not have
exactly 3 or 4 parts. -/
def format_version (version : String) (f : String → String → String := fmt) :
    Option String :=
  let parts := pySplit '-' version
  if parts.length = 3 ∨ parts.length = 4 then
    let dirty := parts.length = 4
    let tag := parts[0]!
    let count := parts[1]!
    let sha := parts[2]!
    if count = "0" ∧ ¬ dirty then
      some tag
    else
      some (f tag (pyLstrip 'g' sha))
  else
    none

/-- `get_git_version(is_tagged)` from `setup.py`: runs
`git describe --tags --long --dirty`; `describeOut` is the stripped decoded
output of that command (`none` if the command raised). The result is
`none` when either the subprocess or the assertion in `format_version`
raised. -/
def get_git_version (is_tagged : Bool) (describeOut : Option String) :
    Option String :=
  match describeOut with
  | none => none
  | some git_version =>
    if is_tagged then
      format_version git_version fmt_tagged
    else
      format_version git_version fmt

/-- `check_if_tagged()` from `setup.py`: runs
`git tag --list --points-at=HEAD`; `taggedOut` is the stripped decoded
output (`none` if the command raised, which propagates as `none` here). -/
def check_if_tagged (taggedOut : Option String) : Option Bool :=
  match taggedOut with
  | none => none
  | some output => some (decide (output ≠ ""))

/-- The `is_tagged = False; try: is_tagged = check_if_tagged()
except: is_tagged = False` block at the top of `get_version`: an exception
from the `git tag` query leaves `is_tagged` at `False`. -/
def is_tagged_of (taggedOut : Option String) : Bool :=
  match check_if_tagged taggedOut with
  | none => false
  | some b => b

/-- `get_version()` from `setup.py`:

```
version   = "0.0.0"
pkg_info  = CURRENT_DIR / "lief.egg-info" / "PKG-INFO"
git_dir   = CURRENT_DIR / ".git"
if git_dir.is_dir():
    is_tagged = False
    try:
        is_tagged = check_if_tagged()
    except:
        is_tagged = False
    try:
        return get_git_version(is_tagged)
    except:
        pass
if pkg_info.is_file():
    return get_pkg_info_version(pkg_info)
```

The local `version = "0.0.0"` is assigned but never returned: if neither
branch returns, the function falls off the end and returns Python `None`,
modelled by `none`. `pkgVersion` is the version string that
`get_pkg_info_version` would read from the installed package metadata
(an external lookup). -/
def get_version (gitDirIsDir : Bool) (taggedOut describeOut : Option String)
    (pkgInfoIsFile : Bool) (pkgVersion : String) : Option String :=
  if gitDirIsDir then
    match get_git_version (is_tagged_of taggedOut) describeOut with
    | some v => some v
    | none =>
      if pkgInfoIsFile then some pkgVersion else none
  else
    if pkgInfoIsFile then some pkgVersion else none

/-- `PACKAGE_NAME = "lief"` from `setup.py`. -/
def PACKAGE_NAME : String := "lief"

/-- `binding_target = "pyLIEF"` from `BuildLibrary.build_extension`. -/
def binding_target : String := "pyLIEF"

/-- POSIX `os.path.join(a, b)`: `b` wins if absolute, a single `/` is
inserted otherwise. -/
def os_path_join (a b : String) : String :=
  if b.startsWith "/" then b
  else if a.endsWith "/" then a ++ b
  else a ++ "/" ++ b

/-- The inputs of one `BuildLibrary.build_extension(ext)` call.  The
fields record, in order: the two `LiefDistribution` flags, the result of
the `has_ninja()` probe, `self.debug`, `self.parallel` (`0` models the
Python-falsy `None`/`0`), `platform.system()`, `sys.maxsize > 2**32`,
`sys.executable`, `ext.sourcedir`, `self.build_temp`, the computed
`cmake_library_output_directory`, `self.build_lib` and the setuptools
result `self.get_ext_filename(self.get_ext_fullname(ext.name))`. -/
structure BuildConfig where
  lief_test : Bool
  ninja : Bool
  hasNinja : Bool
  debug : Bool
  parallel : Nat
  platformSystem : String
  is64 : Bool
  pythonExecutable : String
  sourcedir : String
  build_temp : String
  cmakeLibraryOutputDirectory : String
  build_lib : String
  extFilename : String
deriving DecidableEq

/-- `cfg = 'Debug' if self.debug else 'Release'`. -/
def cfg (c : BuildConfig) : String :=
  if c.debug then "Debug" else "Release"

/-- `jobs = self.parallel if self.parallel else 1`. -/
def jobs (c : BuildConfig) : Nat :=
  if c.parallel = 0 then 1 else c.parallel

/-- `build_with_ninja` as set in `build_extension`:
`if self.has_ninja() and self.distribution.ninja`. -/
def build_with_ninja (c : BuildConfig) : Bool :=
  c.hasNinja && c.ninja

/-- The initial `cmake_args = [...]` assignment of `build_extension`:
the two base `-D` flags. -/
def cmake_args_base (c : BuildConfig) : List String :=
  ["-DCMAKE_LIBRARY_OUTPUT_DIRECTORY=" ++ c.cmakeLibraryOutputDirectory,
   "-DPYTHON_EXECUTABLE=" ++ c.pythonExecutable]

/-- State of `cmake_args` after
`if self.distribution.lief_test: cmake_args += ["-DLIEF_TESTS=on"]`. -/
def cmake_args_tests (c : BuildConfig) : List String :=
  if c.lief_test then cmake_args_base c ++ ["-DLIEF_TESTS=on"]
  else cmake_args_base c

/-- State of `cmake_args` after the platform branch: on Windows the
per-configuration output directory, the CRT flag and the `-A`
architecture selector are appended; elsewhere `-DCMAKE_BUILD_TYPE`. -/
def cmake_args_platform (c : BuildConfig) : List String :=
  if c.platformSystem = "Windows" then
    cmake_args_tests c ++
      ["-DCMAKE_LIBRARY_OUTPUT_DIRECTORY_" ++ (cfg c).toUpper ++ "=" ++
         c.cmakeLibraryOutputDirectory] ++
      ["-DLIEF_USE_CRT_RELEASE=MT"] ++
      (if c.is64 then ["-A", "x64"] else ["-A", "x86"])
  else
    cmake_args_tests c ++ ["-DCMAKE_BUILD_TYPE=" ++ cfg c]

/-- The final `cmake_args` list built by `build_extension`:
`-G Ninja` is appended exactly when Ninja is both available and
requested. -/
def cmake_args (c : BuildConfig) : List String :=
  if build_with_ninja c then cmake_args_platform c ++ ["-G", "Ninja"]
  else cmake_args_platform c

/-- `build_args = ['--config', cfg]`, extended with `['--', '/m']` on
Windows. -/
def build_args (c : BuildConfig) : List String :=
  ["--config", cfg c] ++ (if c.platformSystem = "Windows" then ["--", "/m"] else [])

/-- `configure_cmd = ['cmake', ext.sourcedir] + cmake_args`. -/
def configure_cmd (c : BuildConfig) : List String :=
  ["cmake", c.sourcedir] ++ cmake_args c

/-- The build-step subprocess commands of `build_extension`, in execution
order (step `# 2. Build` of the source): a single `cmake --build` on
Windows; otherwise `ninja` commands when `build_with_ninja` (four of
them, including a re-configure, when tests are enabled), else `make`
commands. -/
def build_cmds (c : BuildConfig) : List (List String) :=
  if c.platformSystem = "Windows" then
    [["cmake", "--build", ".", "--target", binding_target] ++ build_args c]
  else if build_with_ninja c then
    if c.lief_test then
      [["ninja", "lief_samples"], configure_cmd c, ["ninja"],
       ["ninja", "check-lief"]]
    else
      [["ninja", binding_target]]
  else
    if c.lief_test then
      [["make", "-j" ++ toString (jobs c), "lief_samples"], configure_cmd c,
       ["make", "-j" ++ toString (jobs c), "all"],
       ["make", "-j" ++ toString (jobs c), "check-lief"]]
    else
      [["make", "-j" ++ toString (jobs c), binding_target]]

/-- All subprocess commands issued by one `build_extension` call, in
order: the configure call, then the build calls. -/
def all_cmds (c : BuildConfig) : List (List String) :=
  configure_cmd c :: build_cmds c

/-- `pycosmiq_dst = os.path.join(self.build_lib, ...)`. -/
def pycosmiq_dst (c : BuildConfig) : String :=
  os_path_join c.build_lib c.extFilename

/-- `libsuffix = pycosmiq_dst.split(".")[-1]`. -/
def libsuffix (c : BuildConfig) : String :=
  (pySplit '.' (pycosmiq_dst c)).getLast!

/-- `pycosmiq_path = os.path.join(cmake_library_output_directory,
"{}.{}".format(PACKAGE_NAME, libsuffix))`. -/
def pycosmiq_path (c : BuildConfig) : String :=
  os_path_join c.cmakeLibraryOutputDirectory (PACKAGE_NAME ++ "." ++ libsuffix c)

/-- Observable side effects of `BuildLibrary`: a subprocess invocation
(`subprocess.check_call`, recorded by its argument list), the final
`copy_file(pycosmiq_path, pycosmiq_dst, ...)` of `build_extension`, and
the trailing `self.copy_extensions_to_source()` of `run`. -/
inductive Action where
  | call (cmd : List String)
  | copy (src dst : String)
  | copyToSource
deriving DecidableEq

/-- Runs a list of subprocess commands in order.  `oracle cmd` tells
whether the command exits with status zero; the first failing command
raises `CalledProcessError`, so later commands are not attempted.
Returns the trace of attempted calls and whether all of them succeeded. -/
def exec_cmds (oracle : List String → Bool) : List (List String) → List Action × Bool
  | [] => ([], true)
  | cmd :: rest =>
    if oracle cmd then
      let r := exec_cmds oracle rest
      (Action.call cmd :: r.1, r.2)
    else
      ([Action.call cmd], false)

/-- `BuildLibrary.build_extension(ext)` as a trace: the configure call,
the build calls, and — only when every subprocess succeeded — the final
`copy_file` into the package output path.  The boolean is `true` when the
call returned normally, `false` when a `CalledProcessError` propagated. -/
def build_extension (c : BuildConfig) (oracle : List String → Bool) :
    List Action × Bool :=
  if (exec_cmds oracle (all_cmds c)).2 then
    ((exec_cmds oracle (all_cmds c)).1 ++
       [Action.copy (pycosmiq_path c) (pycosmiq_dst c)], true)
  else ((exec_cmds oracle (all_cmds c)).1, false)

/-- `build_extension` for each extension in turn, stopping at the first
one that raises (as the `for` loop in `run` would). -/
def run_exts (oracle : List String → Bool) : List BuildConfig → List Action × Bool
  | [] => ([], true)
  | c :: rest =>
    let r := build_extension c oracle
    if r.2 then
      let r2 := run_exts oracle rest
      (r.1 ++ r2.1, r2.2)
    else
      (r.1, false)

/-- `BuildLibrary.run(self)` from `setup.py`.  `cmakeProbe` is the result
of `subprocess.check_output(['cmake', '--version'])`: `none` models the
`OSError` raised when the `cmake` executable is missing, in which case a
`RuntimeError` is raised before anything else happens.  Otherwise every
extension is built and `copy_extensions_to_source` runs.  The result pairs
the trace of attempted actions with the outcome (`Except.error` modelling
a propagated exception and its message). -/
def BuildLibrary.run (cmakeProbe : Option String) (extNames : List String)
    (exts : List BuildConfig) (oracle : List String → Bool) :
    List Action × Except String Unit :=
  match cmakeProbe with
  | none =>
    ([], Except.error ("CMake must be installed to build the following extensions: " ++
        String.intercalate ", " extNames))
  | some _ =>
    let r := run_exts oracle exts
    if r.2 then (r.1 ++ [Action.copyToSource], Except.ok ())
    else (r.1, Except.error "subprocess exited with non-zero status")

/-- The content of the destination file `dst` after a trace of actions,
starting from `prev` (`none` = the file does not exist).  Only a
`copy` into `dst` changes it. -/
def dst_after (dst : String) : List Action → Option String → Option String
  | [], s => s
  | Action.copy src d :: rest, s =>
    dst_after dst rest (if d = dst then some src else s)
  | _ :: rest, s => dst_after dst rest s

end Setup

namespace Setup

/-- C1: the claim states that with no `.git` directory and no `PKG-INFO`
file the resolved version is `"0.0.0"`.  The code disagrees: the local
`version = "0.0.0"` of `get_version` is never returned, the function
falls off the end and yields Python `None` (`none`), whatever the git
query outcomes would have been. -/
theorem get_version_no_git_no_pkginfo_is_none
    (taggedOut describeOut : Option String) (pkgVersion : String) :
    get_version false taggedOut describeOut false pkgVersion = none := rfl

/-- C2: the claim states that every outcome of `get_version` is a
non-empty string.  The code disagrees: with a `.git` directory present,
both git commands failing and no `PKG-INFO` file, `get_version` returns
Python `None`, which is not a string at all. -/
theorem get_version_all_sources_fail_is_none :
    get_version true none none false "1.2.3" = none := rfl

/-- C3: for the describe output `v1.2.3-0-g8a4c` (tag `v1.2.3`, zero
commits since the tag, not dirty), both formatting paths — `fmt_tagged`
used when HEAD is tagged and the default `fmt` — resolve to the bare tag
`v1.2.3`, and so does `get_git_version` for either value of `is_tagged`. -/
theorem format_version_tag_zero_clean_bare_tag :
    format_version "v1.2.3-0-g8a4c" fmt_tagged = some "v1.2.3" ∧
    format_version "v1.2.3-0-g8a4c" fmt = some "v1.2.3" ∧
    get_git_version true (some "v1.2.3-0-g8a4c") = some "v1.2.3" ∧
    get_git_version false (some "v1.2.3-0-g8a4c") = some "v1.2.3" := by
  decide

/-- C4, counterexample: at the tagged commit with a dirty work tree
(`git describe` output `v1.2.3-0-g8a4c-dirty`, `is_tagged` true), the
resolved version is the bare tag `v1.2.3`, not `v1.2.3.dev0` as the claim
requires for every dirty output; so the bare tag is not produced only
when clean. -/
theorem get_git_version_tagged_dirty_bare_tag :
    get_git_version true (some "v1.2.3-0-g8a4c-dirty") = some "v1.2.3" ∧
    get_git_version true (some "v1.2.3-0-g8a4c-dirty") ≠ some "v1.2.3.dev0" := by
  decide

/-- C4, amended: on the untagged formatting path (the default format
`fmt`), every well-formed describe output with commit count `≠ 0` or the
dirty flag resolves to `<tag>.dev0` with the sha discarded, and the bare
tag is produced exactly when the count is `0` and the output is clean. -/
theorem format_version_untagged_dev0_iff (version : String)
    (h : (pySplit '-' version).length = 3 ∨ (pySplit '-' version).length = 4) :
    (¬ ((pySplit '-' version)[1]! = "0" ∧ (pySplit '-' version).length = 3) →
       format_version version fmt = some ((pySplit '-' version)[0]! ++ ".dev0")) ∧
    (format_version version fmt = some (pySplit '-' version)[0]! ↔
       ((pySplit '-' version)[1]! = "0" ∧ (pySplit '-' version).length = 3)) := by
  have hlen : ∀ s : String, s ++ ".dev0" ≠ s := by
    intro s hs
    have := congrArg String.length hs
    rw [String.length_append] at this
    have h5 : (".dev0" : String).length = 5 := rfl
    rw [h5] at this
    omega
  unfold format_version
  rw [if_pos h]
  simp only [fmt]
  constructor
  · intro hnot
    rw [if_neg]
    intro hc
    exact hnot ⟨hc.1, by omega⟩
  · constructor
    · intro he
      by_cases hc : (pySplit '-' version)[1]! = "0" ∧ ¬ (pySplit '-' version).length = 4
      · exact ⟨hc.1, by omega⟩
      · rw [if_neg hc] at he
        exact absurd (Option.some.inj he) (hlen _)
    · intro hc
      rw [if_pos ⟨hc.1, by omega⟩]

/-- C4, witness for the amended theorem at the describe output
`v1.2.3-2-g8a4c`: two commits past the tag, clean, resolved on the
untagged path to `v1.2.3.dev0` and not to the bare tag. -/
theorem format_version_untagged_dev0_iff_witness :
    ((pySplit '-' "v1.2.3-2-g8a4c").length = 3 ∨
       (pySplit '-' "v1.2.3-2-g8a4c").length = 4) ∧
    ((¬ ((pySplit '-' "v1.2.3-2-g8a4c")[1]! = "0" ∧
          (pySplit '-' "v1.2.3-2-g8a4c").length = 3) →
        format_version "v1.2.3-2-g8a4c" fmt =
          some ((pySplit '-' "v1.2.3-2-g8a4c")[0]! ++ ".dev0")) ∧
     (format_version "v1.2.3-2-g8a4c" fmt =
          some (pySplit '-' "v1.2.3-2-g8a4c")[0]! ↔
        ((pySplit '-' "v1.2.3-2-g8a4c")[1]! = "0" ∧
          (pySplit '-' "v1.2.3-2-g8a4c").length = 3))) :=
  ⟨by decide, format_version_untagged_dev0_iff "v1.2.3-2-g8a4c" (by decide)⟩

/-- C5: whenever the git version query raises inside `get_version`
(subprocess failure or the assertion of `format_version`, both modelled
by `get_git_version` returning `none`), the exception is swallowed and
`get_version` falls through to the `PKG-INFO` source: it returns the
package-metadata version when the file exists and `None` otherwise,
never propagating the git failure. -/
theorem get_version_git_failure_falls_through
    (taggedOut describeOut : Option String) (pkgInfoIsFile : Bool)
    (pkgVersion : String)
    (h : get_git_version (is_tagged_of taggedOut) describeOut = none) :
    get_version true taggedOut describeOut pkgInfoIsFile pkgVersion =
      (if pkgInfoIsFile then some pkgVersion else none) := by
  unfold get_version
  rw [h]
  simp

/-- C5, witness: both git commands fail, `PKG-INFO` exists with version
`9.9.9`; `get_version` returns `9.9.9`. -/
theorem get_version_git_failure_falls_through_witness :
    get_git_version (is_tagged_of none) none = none ∧
    get_version true none none true "9.9.9" =
      (if true then some "9.9.9" else none) :=
  ⟨rfl, get_version_git_failure_falls_through none none true "9.9.9" rfl⟩

/-- C9: `format_version` raises its assertion (modelled by `none`) for
every input whose split on `-` does not have exactly 3 or 4 parts,
whatever format is in use; in particular a describe output whose tag
itself contains a dash is rejected rather than parsed. -/
theorem format_version_bad_split_is_none (version : String)
    (f : String → String → String)
    (h : ¬ ((pySplit '-' version).length = 3 ∨
            (pySplit '-' version).length = 4)) :
    format_version version f = none := by
  unfold format_version
  rw [if_neg h]

/-- C9, witness: the describe output `v1.2-rc-1-2-g8a4c`, whose tag
`v1.2-rc-1` contains dashes so the split has 5 parts, makes
`format_version` raise. -/
theorem format_version_bad_split_is_none_witness :
    (¬ ((pySplit '-' "v1.2-rc-1-2-g8a4c").length = 3 ∨
        (pySplit '-' "v1.2-rc-1-2-g8a4c").length = 4)) ∧
    format_version "v1.2-rc-1-2-g8a4c" fmt = none :=
  ⟨by decide, format_version_bad_split_is_none "v1.2-rc-1-2-g8a4c" fmt (by decide)⟩

/-- No element of the pre-generator `cmake_args` can be the string
`"Ninja"`: every element either is a fixed flag different from it or
carries a `-D`/`-A` prefix longer than 5 characters. -/
lemma ninja_not_mem_cmake_args_platform (c : BuildConfig) :
    "Ninja" ∉ cmake_args_platform c := by
  have h5 : ("Ninja" : String).length = 5 := rfl
  have l1 : ∀ d : String,
      ("Ninja" : String) ≠ "-DCMAKE_LIBRARY_OUTPUT_DIRECTORY=" ++ d := by
    intro d he
    have hA : 5 < ("-DCMAKE_LIBRARY_OUTPUT_DIRECTORY=" : String).length := by decide
    have hl := congrArg String.length he
    simp only [String.length_append] at hl
    rw [h5] at hl
    omega
  have l2 : ∀ d : String,
      ("Ninja" : String) ≠ "-DPYTHON_EXECUTABLE=" ++ d := by
    intro d he
    have hA : 5 < ("-DPYTHON_EXECUTABLE=" : String).length := by decide
    have hl := congrArg String.length he
    simp only [String.length_append] at hl
    rw [h5] at hl
    omega
  have l3 : ∀ u d : String,
      ("Ninja" : String) ≠ "-DCMAKE_LIBRARY_OUTPUT_DIRECTORY_" ++ u ++ "=" ++ d := by
    intro u d he
    have hA : 5 < ("-DCMAKE_LIBRARY_OUTPUT_DIRECTORY_" : String).length := by decide
    have hl := congrArg String.length he
    simp only [String.length_append] at hl
    rw [h5] at hl
    omega
  have l4 : ∀ d : String,
      ("Ninja" : String) ≠ "-DCMAKE_BUILD_TYPE=" ++ d := by
    intro d he
    have hA : 5 < ("-DCMAKE_BUILD_TYPE=" : String).length := by decide
    have hl := congrArg String.length he
    simp only [String.length_append] at hl
    rw [h5] at hl
    omega
  have l5 : ("Ninja" : String) ≠ "-DLIEF_TESTS=on" := by decide
  have l6 : ("Ninja" : String) ≠ "-DLIEF_USE_CRT_RELEASE=MT" := by decide
  have l7 : ("Ninja" : String) ≠ "-A" := by decide
  have l8 : ("Ninja" : String) ≠ "x64" := by decide
  have l9 : ("Ninja" : String) ≠ "x86" := by decide
  intro hx
  unfold cmake_args_platform cmake_args_tests cmake_args_base at hx
  split_ifs at hx <;>
    simp only [List.mem_append, List.mem_cons, List.not_mem_nil, or_false] at hx <;>
    tauto

/-- C7: the Ninja generator flag `-G Ninja` ends the cmake configuration
arguments exactly when `has_ninja()` succeeded and the `--ninja` flag of
the distribution was given; and (outside Windows) under that same condition
every build-step command is a `ninja` invocation (or the re-configure
call of the test path), while otherwise every build-step command is a
`make` invocation (or the re-configure call). -/
theorem build_backend_iff (c : BuildConfig) :
    (List.IsSuffix ["-G", "Ninja"] (cmake_args c) ↔
       (c.hasNinja = true ∧ c.ninja = true)) ∧
    (c.platformSystem ≠ "Windows" →
      ((c.hasNinja = true ∧ c.ninja = true) →
         ∀ cmd ∈ build_cmds c, cmd.head? = some "ninja" ∨ cmd = configure_cmd c) ∧
      (¬ (c.hasNinja = true ∧ c.ninja = true) →
         ∀ cmd ∈ build_cmds c, cmd.head? = some "make" ∨ cmd = configure_cmd c)) := by
  have key : List.IsSuffix ["-G", "Ninja"] (cmake_args c) ↔
      build_with_ninja c = true := by
    by_cases hbv : build_with_ninja c = true
    · unfold cmake_args
      rw [if_pos hbv]
      exact ⟨fun _ => hbv, fun _ => List.suffix_append _ _⟩
    · unfold cmake_args
      rw [if_neg hbv]
      constructor
      · intro hs
        exact absurd (hs.subset (by simp)) (ninja_not_mem_cmake_args_platform c)
      · intro hfalse
        exact absurd hfalse hbv
  constructor
  · rw [key, build_with_ninja, Bool.and_eq_true]
  · intro hw
    constructor
    · intro hcond cmd hcmd
      have hb : build_with_ninja c = true := by
        rw [build_with_ninja, Bool.and_eq_true]
        exact hcond
      unfold build_cmds at hcmd
      rw [if_neg hw, if_pos hb] at hcmd
      by_cases ht : c.lief_test = true
      · rw [if_pos ht] at hcmd
        simp only [List.mem_cons, List.not_mem_nil, or_false] at hcmd
        rcases hcmd with rfl | rfl | rfl | rfl <;> simp
      · rw [if_neg ht] at hcmd
        simp only [List.mem_cons, List.not_mem_nil, or_false] at hcmd
        subst hcmd
        simp
    · intro hncond cmd hcmd
      have hb : ¬ (build_with_ninja c = true) := by
        rw [build_with_ninja, Bool.and_eq_true]
        exact hncond
      unfold build_cmds at hcmd
      rw [if_neg hw, if_neg hb] at hcmd
      by_cases ht : c.lief_test = true
      · rw [if_pos ht] at hcmd
        simp only [List.mem_cons, List.not_mem_nil, or_false] at hcmd
        rcases hcmd with rfl | rfl | rfl | rfl <;> simp
      · rw [if_neg ht] at hcmd
        simp only [List.mem_cons, List.not_mem_nil, or_false] at hcmd
        subst hcmd
        simp

/-- A non-Windows configuration without Ninja: two make jobs, release
build, tests off. -/
def sampleConfigA : BuildConfig :=
  ⟨false, false, false, false, 2, "Linux", true, "/usr/bin/python3",
   "/src/LIEF", "/src/LIEF/build/temp", "/src/LIEF/build",
   "/src/LIEF/build/lib", "lief.so"⟩

/-- Same build inputs as `sampleConfigA`, but a different output
`build_lib` and extension filename (fields that do not enter the
configure or build command lines). -/
def sampleConfigB : BuildConfig :=
  ⟨false, false, false, false, 2, "Linux", true, "/usr/bin/python3",
   "/src/LIEF", "/src/LIEF/build/temp", "/src/LIEF/build",
   "/elsewhere/lib", "lief.cpython-39.so"⟩

/-- Ninja available and requested, non-Windows. -/
def sampleConfigNinja : BuildConfig :=
  ⟨false, true, true, false, 0, "Linux", true, "/usr/bin/python3",
   "/src/LIEF", "/src/LIEF/build/temp", "/src/LIEF/build",
   "/src/LIEF/build/lib", "lief.so"⟩

/-- C7, witness: `build_backend_iff` instantiated at a concrete
non-Windows configuration with Ninja available and requested. -/
theorem build_backend_iff_witness :
    (List.IsSuffix ["-G", "Ninja"] (cmake_args sampleConfigNinja) ↔
       (sampleConfigNinja.hasNinja = true ∧ sampleConfigNinja.ninja = true)) ∧
    (sampleConfigNinja.platformSystem ≠ "Windows" →
      ((sampleConfigNinja.hasNinja = true ∧ sampleConfigNinja.ninja = true) →
         ∀ cmd ∈ build_cmds sampleConfigNinja,
           cmd.head? = some "ninja" ∨ cmd = configure_cmd sampleConfigNinja) ∧
      (¬ (sampleConfigNinja.hasNinja = true ∧ sampleConfigNinja.ninja = true) →
         ∀ cmd ∈ build_cmds sampleConfigNinja,
           cmd.head? = some "make" ∨ cmd = configure_cmd sampleConfigNinja)) :=
  build_backend_iff sampleConfigNinja

/-- C8: the configure and build command lines of `build_extension` are a
function of the recorded inputs alone — two invocations agreeing on the
distribution flags, the Ninja probe, debug, parallelism, platform,
pointer width, interpreter and the source/build paths produce identical
argument lists (the remaining fields, `build_lib` and the extension
filename, only name the copy destination). -/
theorem build_extension_args_deterministic (c₁ c₂ : BuildConfig)
    (h1 : c₁.lief_test = c₂.lief_test) (h2 : c₁.ninja = c₂.ninja)
    (h3 : c₁.hasNinja = c₂.hasNinja) (h4 : c₁.debug = c₂.debug)
    (h5 : c₁.parallel = c₂.parallel)
    (h6 : c₁.platformSystem = c₂.platformSystem) (h7 : c₁.is64 = c₂.is64)
    (h8 : c₁.pythonExecutable = c₂.pythonExecutable)
    (h9 : c₁.sourcedir = c₂.sourcedir) (h10 : c₁.build_temp = c₂.build_temp)
    (h11 : c₁.cmakeLibraryOutputDirectory = c₂.cmakeLibraryOutputDirectory) :
    configure_cmd c₁ = configure_cmd c₂ ∧ build_cmds c₁ = build_cmds c₂ := by
  have hconf : configure_cmd c₁ = configure_cmd c₂ := by
    unfold configure_cmd cmake_args cmake_args_platform cmake_args_tests
      cmake_args_base build_with_ninja cfg
    simp only [h1, h2, h3, h4, h5, h6, h7, h8, h9, h10, h11]
  refine ⟨hconf, ?_⟩
  unfold build_cmds build_args build_with_ninja cfg jobs
  simp only [h1, h2, h3, h4, h5, h6, h7, hconf]

/-- C8, witness: `sampleConfigA` and `sampleConfigB` share every
configure-relevant input and get identical command lines. -/
theorem build_extension_args_deterministic_witness :
    sampleConfigA.lief_test = sampleConfigB.lief_test ∧
    sampleConfigA.ninja = sampleConfigB.ninja ∧
    sampleConfigA.hasNinja = sampleConfigB.hasNinja ∧
    sampleConfigA.debug = sampleConfigB.debug ∧
    sampleConfigA.parallel = sampleConfigB.parallel ∧
    sampleConfigA.platformSystem = sampleConfigB.platformSystem ∧
    sampleConfigA.is64 = sampleConfigB.is64 ∧
    sampleConfigA.pythonExecutable = sampleConfigB.pythonExecutable ∧
    sampleConfigA.sourcedir = sampleConfigB.sourcedir ∧
    sampleConfigA.build_temp = sampleConfigB.build_temp ∧
    sampleConfigA.cmakeLibraryOutputDirectory =
      sampleConfigB.cmakeLibraryOutputDirectory ∧
    (configure_cmd sampleConfigA = configure_cmd sampleConfigB ∧
      build_cmds sampleConfigA = build_cmds sampleConfigB) :=
  ⟨rfl, rfl, rfl, rfl, rfl, rfl, rfl, rfl, rfl, rfl, rfl,
    build_extension_args_deterministic sampleConfigA sampleConfigB
      rfl rfl rfl rfl rfl rfl rfl rfl rfl rfl rfl⟩

/-- C6: when the `cmake --version` probe raises `OSError` (the `cmake`
executable is missing), `BuildLibrary.run` raises the fatal
`RuntimeError` naming the extensions, and its action trace is empty: no
configure or build subprocess for any extension is attempted. -/
theorem run_missing_cmake_aborts (extNames : List String)
    (exts : List BuildConfig) (oracle : List String → Bool) :
    BuildLibrary.run none extNames exts oracle =
      ([], Except.error ("CMake must be installed to build the following extensions: " ++
          String.intercalate ", " extNames)) := rfl

/-- Running a command list succeeds exactly when the oracle accepts
every command in it. -/
lemma exec_cmds_ok_iff (oracle : List String → Bool)
    (cmds : List (List String)) :
    (exec_cmds oracle cmds).2 = true ↔ ∀ cmd ∈ cmds, oracle cmd = true := by
  induction cmds with
  | nil => simp [exec_cmds]
  | cons head tail ih =>
    unfold exec_cmds
    by_cases h : oracle head = true
    · rw [if_pos h]
      simp [h, ih]
    · rw [if_neg h]
      simp [h]

/-- Every action in an `exec_cmds` trace is a subprocess call. -/
lemma exec_cmds_all_calls (oracle : List String → Bool)
    (cmds : List (List String)) (a : Action)
    (ha : a ∈ (exec_cmds oracle cmds).1) : ∃ cmd, a = Action.call cmd := by
  induction cmds with
  | nil => simp [exec_cmds] at ha
  | cons head tail ih =>
    unfold exec_cmds at ha
    by_cases h : oracle head = true
    · rw [if_pos h] at ha
      simp only [List.mem_cons] at ha
      rcases ha with rfl | ha
      · exact ⟨head, rfl⟩
      · exact ih ha
    · rw [if_neg h] at ha
      simp only [List.mem_cons, List.not_mem_nil, or_false] at ha
      exact ⟨head, ha⟩

/-- A trace containing only subprocess calls leaves any destination file
unchanged. -/
lemma dst_after_of_all_calls (dst : String) (l : List Action)
    (h : ∀ a ∈ l, ∃ cmd, a = Action.call cmd) (prev : Option String) :
    dst_after dst l prev = prev := by
  induction l generalizing prev with
  | nil => rfl
  | cons a rest ih =>
    obtain ⟨cmd, rfl⟩ := h a (List.mem_cons_self a rest)
    have hstep : dst_after dst (Action.call cmd :: rest) prev =
        dst_after dst rest prev := rfl
    rw [hstep]
    exact ih (fun b hb => h b (List.mem_cons_of_mem _ hb)) prev

/-- C10: if any configure or build subprocess of `build_extension` exits
non-zero, the `CalledProcessError` propagates (the call does not return
normally), the final `copy_file` into the package output path is never
performed, and the destination file keeps whatever content it had. -/
theorem build_extension_failure_no_copy (c : BuildConfig)
    (oracle : List String → Bool)
    (h : ∃ cmd ∈ all_cmds c, oracle cmd = false) :
    (build_extension c oracle).2 = false ∧
    (∀ s d : String, Action.copy s d ∉ (build_extension c oracle).1) ∧
    (∀ (dst : String) (prev : Option String),
        dst_after dst (build_extension c oracle).1 prev = prev) := by
  obtain ⟨cmd, hmem, hfail⟩ := h
  have hexec : (exec_cmds oracle (all_cmds c)).2 = false := by
    cases hb : (exec_cmds oracle (all_cmds c)).2 with
    | false => rfl
    | true =>
      exfalso
      have hall := (exec_cmds_ok_iff oracle (all_cmds c)).mp hb
      have hcontra := hall cmd hmem
      rw [hfail] at hcontra
      exact Bool.noConfusion hcontra
  have htrace : build_extension c oracle =
      ((exec_cmds oracle (all_cmds c)).1, false) := by
    unfold build_extension
    rw [hexec]
    simp
  refine ⟨by rw [htrace], ?_, ?_⟩
  · intro s d hin
    rw [htrace] at hin
    obtain ⟨cmd', hc⟩ := exec_cmds_all_calls oracle (all_cmds c) _ hin
    exact Action.noConfusion hc
  · intro dst prev
    rw [htrace]
    exact dst_after_of_all_calls dst _
      (fun a ha => exec_cmds_all_calls oracle (all_cmds c) a ha) prev

/-- C10, witness: with every subprocess failing, `build_extension` on a
concrete configuration raises, performs no copy and leaves any
destination untouched. -/
theorem build_extension_failure_no_copy_witness :
    (∃ cmd ∈ all_cmds sampleConfigA, (fun _ => false) cmd = false) ∧
    ((build_extension sampleConfigA (fun _ => false)).2 = false ∧
     (∀ s d : String,
        Action.copy s d ∉ (build_extension sampleConfigA (fun _ => false)).1) ∧
     (∀ (dst : String) (prev : Option String),
        dst_after dst (build_extension sampleConfigA (fun _ => false)).1 prev =
          prev)) :=
  ⟨⟨configure_cmd sampleConfigA, List.mem_cons_self _ _, rfl⟩,
    build_extension_failure_no_copy sampleConfigA (fun _ => false)
      ⟨configure_cmd sampleConfigA, List.mem_cons_self _ _, rfl⟩⟩

end Setup
